import Mathlib

/-!
Verification of the AI-assisted SOAP-note generation pipeline of the
health-dash backend (`apps/consultations/services/soap_generator.py`),
shallowly embedded in Lean.

Python strings are modelled as `List Char`; Python dicts as association
lists (insertion order preserved, later assignment to an existing key
overwrites in place, matching CPython semantics); Python exceptions as a
pair of type name and message.  `json.loads` is embedded as an executable
recursive-descent parser following CPython's `json` module (its pure-Python
scanner): strict strings rejecting unescaped control characters, the JSON
number grammar with Python's int/float split, `NaN`/`Infinity`/`-Infinity`
constants, duplicate object keys resolved last-wins.  Floats are carried
by their lexeme (no claim computes with float values).  Lone surrogates
from a `\uXXXX` escape map through `Char.ofNat` (CPython keeps the lone
surrogate code unit; no claim exercises this corner).
-/

namespace HealthDash

/-- Characters of a Python `str`. -/
abbrev Str := List Char

/-- Whitespace stripped by Python `str.strip()` (the ASCII part; the
claims never exercise non-ASCII whitespace). -/
def isPySpace (c : Char) : Bool :=
  c == ' ' || c == '\t' || c == '\n' || c == '\r' || c == '\x0b' || c == '\x0c'

/-- Python `str.strip()`. -/
def pyStrip (s : Str) : Str :=
  ((s.dropWhile isPySpace).reverse.dropWhile isPySpace).reverse

/-- Python `str.split("\n")`. -/
def splitNl : Str → List Str
  | [] => [[]]
  | c :: rest =>
    if c = '\n' then [] :: splitNl rest
    else
      match splitNl rest with
      | [] => [[c]]
      | l :: ls => (c :: l) :: ls

/-- Python `"\n".join(lines)`. -/
def joinNl : List Str → Str
  | [] => []
  | [l] => l
  | l :: ls => l ++ '\n' :: joinNl ls

/-- Whitespace skipped by the `json` module scanner (`' \t\n\r'`). -/
def isJsonWs (c : Char) : Bool :=
  c == ' ' || c == '\t' || c == '\n' || c == '\r'

def skipWs (s : Str) : Str := s.dropWhile isJsonWs

/-- Python values produced by `json.loads` (the subset JSON can denote). -/
inductive PyVal where
  | null
  | bool (b : Bool)
  | int (n : Int)
  | float (lexeme : Str)
  | str (s : Str)
  | list (xs : List PyVal)
  | dict (entries : List (Str × PyVal))

/-- CPython dict assignment `d[k] = v`: overwrite in place if the key is
present (keeping its insertion position), else append. -/
def dictInsert (d : List (Str × PyVal)) (k : Str) (v : PyVal) : List (Str × PyVal) :=
  if d.any (fun p => p.1 == k) then
    d.map (fun p => if p.1 == k then (k, v) else p)
  else d ++ [(k, v)]

/-- CPython `d.get(k, dflt)`. -/
def dictGet (d : List (Str × PyVal)) (k : Str) (dflt : PyVal) : PyVal :=
  match d.find? (fun p => p.1 == k) with
  | some p => p.2
  | Option.none => dflt

def hexVal (c : Char) : Option Nat :=
  if '0' ≤ c ∧ c ≤ '9' then some (c.toNat - '0'.toNat)
  else if 'a' ≤ c ∧ c ≤ 'f' then some (c.toNat - 'a'.toNat + 10)
  else if 'A' ≤ c ∧ c ≤ 'F' then some (c.toNat - 'A'.toNat + 10)
  else Option.none

def parseHex4 : Str → Option (Nat × Str)
  | a :: b :: c :: d :: rest =>
    match hexVal a, hexVal b, hexVal c, hexVal d with
    | some x, some y, some z, some w => some (((x * 16 + y) * 16 + z) * 16 + w, rest)
    | _, _, _, _ => Option.none
  | _ => Option.none

/-- The backslash escapes accepted by the `json` string scanner. -/
def escapeChar (c : Char) : Option Char :=
  if c = '\"' then some '\"'
  else if c = '\\' then some '\\'
  else if c = '/' then some '/'
  else if c = 'b' then some '\x08'
  else if c = 'f' then some '\x0c'
  else if c = 'n' then some '\n'
  else if c = 'r' then some '\r'
  else if c = 't' then some '\t'
  else Option.none

def consFst (c : Char) : Option (Str × Str) → Option (Str × Str)
  | some (s, rest) => some (c :: s, rest)
  | Option.none => Option.none

/-- CPython `py_scanstring` (strict mode), entered just after the opening quote:
returns the decoded string and the remaining input after the closing
quote.  Fuelled; every step consumes at least one character, so fuel
`length + 1` never runs out. -/
def parseJString : Nat → Str → Option (Str × Str)
  | 0, _ => Option.none
  | _ + 1, [] => Option.none
  | fuel + 1, c :: rest =>
    if c = '\"' then some ([], rest)
    else if c = '\\' then
      match rest with
      | [] => Option.none
      | e :: rest2 =>
        if e = 'u' then
          match parseHex4 rest2 with
          | Option.none => Option.none
          | some (n, rest3) =>
            if 0xD800 ≤ n ∧ n ≤ 0xDBFF then
              match rest3 with
              | '\\' :: 'u' :: rest4 =>
                match parseHex4 rest4 with
                | some (m, rest5) =>
                  if 0xDC00 ≤ m ∧ m ≤ 0xDFFF then
                    consFst (Char.ofNat (0x10000 + (n - 0xD800) * 0x400 + (m - 0xDC00)))
                      (parseJString fuel rest5)
                  else consFst (Char.ofNat n) (parseJString fuel rest3)
                | Option.none => Option.none
              | _ => consFst (Char.ofNat n) (parseJString fuel rest3)
            else consFst (Char.ofNat n) (parseJString fuel rest3)
        else
          match escapeChar e with
          | some c2 => consFst c2 (parseJString fuel rest2)
          | Option.none => Option.none
    else if c.toNat < 0x20 then Option.none
    else consFst c (parseJString fuel rest)

def digitsToNat (ds : Str) : Nat :=
  ds.foldl (fun acc c => acc * 10 + (c.toNat - '0'.toNat)) 0

/-- Maximal digit prefix. -/
def takeDigits : Str → Str × Str
  | [] => ([], [])
  | c :: rest =>
    if c.isDigit then
      let p := takeDigits rest
      (c :: p.1, p.2)
    else ([], c :: rest)

/-- Optional fraction and exponent of the `json` NUMBER_RE regex
`(-?(?:0|[1-9]\d+|[1-9]))(\.\d+)?([eE][-+]?\d+)?`; an integer lexeme
becomes a Python `int`, anything with a fraction or exponent a `float`. -/
def numTail (sign intPart after : Str) : Option (PyVal × Str) :=
  let fr : Str × Str :=
    match after with
    | '.' :: r =>
      let p := takeDigits r
      if p.1 = [] then ([], after) else ('.' :: p.1, p.2)
    | _ => ([], after)
  let ex : Str × Str :=
    match fr.2 with
    | e :: r =>
      if e = 'e' ∨ e = 'E' then
        match r with
        | g :: r2 =>
          if g = '+' ∨ g = '-' then
            let p := takeDigits r2
            if p.1 = [] then ([], fr.2) else (e :: g :: p.1, p.2)
          else
            let p := takeDigits r
            if p.1 = [] then ([], fr.2) else (e :: p.1, p.2)
        | [] => ([], fr.2)
      else ([], fr.2)
    | [] => ([], fr.2)
  if fr.1 = [] ∧ ex.1 = [] then
    let n : Int := Int.ofNat (digitsToNat intPart)
    some (.int (if sign = ['-'] then -n else n), ex.2)
  else
    some (.float (sign ++ intPart ++ fr.1 ++ ex.1), ex.2)

/-- Match the integer part of NUMBER_RE at the head of the input
(`-?(0|[1-9]\d*)`, so no leading zeros). -/
def parseNumber (s : Str) : Option (PyVal × Str) :=
  let sp : Str × Str :=
    match s with
    | '-' :: r => (['-'], r)
    | _ => ([], s)
  match sp.2 with
  | [] => Option.none
  | c :: rest =>
    if c = '0' then numTail sp.1 ['0'] rest
    else if c.isDigit then
      let p := takeDigits rest
      numTail sp.1 (c :: p.1) p.2
    else Option.none

def matchLit (lit s : Str) : Option Str :=
  if List.isPrefixOf lit s then some (s.drop lit.length) else Option.none

mutual

/-- The `json` module `scan_once`, fuelled on the recursion depth of
containers (fuel `length + 1` always suffices since every nested value
consumes input). -/
def parseValue : Nat → Str → Option (PyVal × Str)
  | 0, _ => Option.none
  | fuel + 1, s =>
    match s with
    | [] => Option.none
    | c :: rest =>
      if c = '\"' then
        match parseJString (rest.length + 1) rest with
        | some (cs, r) => some (.str cs, r)
        | Option.none => Option.none
      else if c = '\x7b' then parseObjectBody fuel rest
      else if c = '[' then parseArrayBody fuel rest
      else
        match matchLit ("null".data) s with
        | some r => some (.null, r)
        | Option.none =>
        match matchLit ("true".data) s with
        | some r => some (.bool true, r)
        | Option.none =>
        match matchLit ("false".data) s with
        | some r => some (.bool false, r)
        | Option.none =>
        match parseNumber s with
        | some vr => some vr
        | Option.none =>
        match matchLit ("NaN".data) s with
        | some r => some (.float ("NaN".data), r)
        | Option.none =>
        match matchLit ("Infinity".data) s with
        | some r => some (.float ("Infinity".data), r)
        | Option.none =>
        match matchLit ("-Infinity".data) s with
        | some r => some (.float ("-Infinity".data), r)
        | Option.none => Option.none

/-- CPython `parse_object`, entered just after `\x7b`. -/
def parseObjectBody : Nat → Str → Option (PyVal × Str)
  | 0, _ => Option.none
  | fuel + 1, s =>
    match skipWs s with
    | '\x7d' :: r => some (.dict [], r)
    | '\"' :: r => parseMembers fuel r []
    | _ => Option.none

/-- Object member loop, entered just after a key's opening quote; the
accumulated pairs become a dict with last-wins duplicate keys, as
CPython's `dict(pairs)` produces. -/
def parseMembers : Nat → Str → List (Str × PyVal) → Option (PyVal × Str)
  | 0, _, _ => Option.none
  | fuel + 1, s, acc =>
    match parseJString (s.length + 1) s with
    | Option.none => Option.none
    | some (key, r1) =>
      match skipWs r1 with
      | ':' :: r2 =>
        match parseValue fuel (skipWs r2) with
        | Option.none => Option.none
        | some (v, r3) =>
          let acc2 := dictInsert acc key v
          match skipWs r3 with
          | '\x7d' :: r4 => some (.dict acc2, r4)
          | ',' :: r4 =>
            match skipWs r4 with
            | '\"' :: r5 => parseMembers fuel r5 acc2
            | _ => Option.none
          | _ => Option.none
      | _ => Option.none

/-- CPython `parse_array`, entered just after `[`. -/
def parseArrayBody : Nat → Str → Option (PyVal × Str)
  | 0, _ => Option.none
  | fuel + 1, s =>
    match skipWs s with
    | ']' :: r => some (.list [], r)
    | t => parseElems fuel t []

def parseElems : Nat → Str → List PyVal → Option (PyVal × Str)
  | 0, _, _ => Option.none
  | fuel + 1, s, acc =>
    match parseValue fuel s with
    | Option.none => Option.none
    | some (v, r1) =>
      match skipWs r1 with
      | ']' :: r2 => some (.list (acc ++ [v]), r2)
      | ',' :: r2 => parseElems fuel (skipWs r2) (acc ++ [v])
      | _ => Option.none

end

/-- Python `json.loads`: skip leading whitespace, scan one value, require
only whitespace to remain (`Extra data` otherwise); `Option.none` models a
raised `json.JSONDecodeError`. -/
def loads (s : Str) : Option PyVal :=
  let t := skipWs s
  match parseValue (t.length + 1) t with
  | some (v, rest) => if skipWs rest = [] then some v else Option.none
  | Option.none => Option.none

/-- A raised Python exception: runtime type name and message. -/
structure PyExc where
  etype : Str
  msg : Str
deriving DecidableEq

/-- The exception `ValueError("AI response was not valid JSON. Please try again.")`, the
exception `generate_soap_with_ai` raises from its `json.JSONDecodeError`
handler (the spec's ParseError). -/
def jsonParseExc : PyExc :=
  ⟨"ValueError".data, "AI response was not valid JSON. Please try again.".data⟩

/-- The exception `ValueError("No LLM configured. Set DEFAULT_LLM_MODEL or an API key.")`
raised by `_get_llm_kwargs` (the spec's ConfigurationError). -/
def noLlmExc : PyExc :=
  ⟨"ValueError".data, "No LLM configured. Set DEFAULT_LLM_MODEL or an API key.".data⟩

/-- Python type name of a value, as it appears in error messages. -/
def pyTypeName : PyVal → Str
  | .null => "NoneType".data
  | .bool _ => "bool".data
  | .int _ => "int".data
  | .float _ => "float".data
  | .str _ => "str".data
  | .list _ => "list".data
  | .dict _ => "dict".data

/-- The `AttributeError` raised by `v.get(...)` when `v` is not a dict. -/
def attrErrorGet (v : PyVal) : PyExc :=
  ⟨"AttributeError".data,
   '\x27' :: pyTypeName v ++ "\x27 object has no attribute \x27get\x27".data⟩

/-- The markdown code-fence filter loop of `generate_soap_with_ai`
(`in_json` state over the split lines; lines starting with ```` ```json ````
turn collection on, lines starting with ```` ``` ```` turn it off, collected
lines are kept only while `in_json`). -/
def fenceFilter : Bool → List Str → List Str
  | _, [] => []
  | inJson, l :: ls =>
    if List.isPrefixOf ("```json".data) l then fenceFilter true ls
    else if List.isPrefixOf ("```".data) l then fenceFilter false ls
    else if inJson then l :: fenceFilter inJson ls
    else fenceFilter inJson ls

/-- The fence-handling block: applied only when the (stripped) content
starts with ```` ``` ````; rejoins the collected lines with newlines. -/
def stripFences (content : Str) : Str :=
  if List.isPrefixOf ("```".data) content then
    joinNl (fenceFilter false (splitNl content))
  else content

/-- The response-parsing tail of `generate_soap_with_ai`: strip, unfence,
`json.loads` (a decode failure is re-raised as `jsonParseExc`), then build
the result dict from `soap_data.get(key, "")`; a non-dict `soap_data` makes
`.get` raise `AttributeError`, which the generic handler re-raises as is. -/
def extractSoap : PyVal → Except PyExc (List (Str × PyVal))
  | .dict d =>
    .ok [(("subjective".data), dictGet d ("subjective".data) (.str [])),
         (("objective".data), dictGet d ("objective".data) (.str [])),
         (("assessment".data), dictGet d ("assessment".data) (.str [])),
         (("plan".data), dictGet d ("plan".data) (.str []))]
  | v => .error (attrErrorGet v)

def parseSoapContent (raw : Str) : Except PyExc (List (Str × PyVal)) :=
  let content := stripFences (pyStrip raw)
  match loads content with
  | Option.none => .error jsonParseExc
  | some v => extractSoap v

/-- The Django settings attributes `_get_llm_kwargs` reads.  An `Option`
field models `getattr(settings, name, "")`: `Option.none` is an absent
attribute (the `getattr` default, also covering an attribute set to
`None`, which `or ""` collapses to the same empty string). -/
structure Settings where
  DEFAULT_LLM_MODEL : Option Str
  ANTHROPIC_API_KEY : Option Str
  OPENAI_API_KEY : Option Str
  LLM_MODELS : List (Str × List (Str × Str))

/-- Python `getattr(settings, name, "") or ""`. -/
def attrOrEmpty : Option Str → Str
  | some s => s
  | Option.none => []

/-- Python `getattr(settings, "LLM_MODELS", \x7b\x7d).get(model_name, \x7b\x7d)`. -/
def lookupConfig (models : List (Str × List (Str × Str))) (name : Str) : List (Str × Str) :=
  match models.find? (fun p => p.1 == name) with
  | some p => p.2
  | Option.none => []

/-- CPython dict assignment on a string-valued dict (for the
`\x7b"model": model_name, **model_config\x7d` kwargs merge). -/
def strDictInsert (d : List (Str × Str)) (k v : Str) : List (Str × Str) :=
  if d.any (fun p => p.1 == k) then
    d.map (fun p => if p.1 == k then (k, v) else p)
  else d ++ [(k, v)]

def strDictGet (d : List (Str × Str)) (k dflt : Str) : Str :=
  match d.find? (fun p => p.1 == k) with
  | some p => p.2
  | Option.none => dflt

/-- The source `_get_llm_kwargs`: resolve the model name (explicit
`DEFAULT_LLM_MODEL`, else Anthropic key, else OpenAI key, else raise),
then return `\x7b"model": model_name, **model_config\x7d`. -/
def _get_llm_kwargs (s : Settings) : Except PyExc (List (Str × Str)) :=
  let model_name := attrOrEmpty s.DEFAULT_LLM_MODEL
  let resolved : Except PyExc Str :=
    if model_name = [] then
      let anthropic_key := attrOrEmpty s.ANTHROPIC_API_KEY
      let openai_key := attrOrEmpty s.OPENAI_API_KEY
      if anthropic_key ≠ [] then .ok ("claude-sonnet-4-5-20250929".data)
      else if openai_key ≠ [] then .ok ("gpt-4o".data)
      else .error noLlmExc
    else .ok model_name
  match resolved with
  | .error e => .error e
  | .ok name =>
    .ok ((lookupConfig s.LLM_MODELS name).foldl
          (fun d p => strDictInsert d p.1 p.2) [(("model".data), name)])

/-- Behavior of the single `litellm.completion` call: it either returns
the raw text of the completion choice (already an arbitrary string) or
raises an exception (network, auth, rate limit, ...). -/
inductive TransportResult where
  | reply (text : Str)
  | exc (e : PyExc)

/-- Whether a raised exception is an instance of `json.JSONDecodeError`
(the class the first `except` clause catches), modelled by runtime type
name; `ValueError`s that are not decode errors, and all other exception
types, are not instances. -/
def isJSONDecodeError (e : PyExc) : Bool := e.etype == ("JSONDecodeError".data)

/-- The `UnboundLocalError` escaping the `json.JSONDecodeError` handler
when the completion call itself raised a `JSONDecodeError`: the handler
logs `f"Response content: \x7bcontent\x7d"`, but `content` is unbound at
that point, and an exception raised inside one `except` clause is not
caught by the later clauses of the same `try` (message as worded by
CPython 3.11+; earlier interpreters word it differently, with the same
exception type). -/
def unboundLocalContentExc : PyExc :=
  ⟨"UnboundLocalError".data,
   "cannot access local variable \x27content\x27 where it is not associated with a value".data⟩

/-- The source `generate_soap_with_ai`, with the prompt construction (pure string
formatting that cannot fail) elided and the `litellm.completion` stub's
behavior passed in.  The second component counts completion calls:
`_get_llm_kwargs()` is evaluated as an argument, before `completion` is
entered, so its `ValueError` (not a `JSONDecodeError` instance, hence
re-raised unchanged by the generic handler) leaves the count at zero.
The `except json.JSONDecodeError` clause scopes over the whole `try`
body including the completion call: a completion-raised
`JSONDecodeError` enters that handler and surfaces as its
`UnboundLocalError`; any other transport exception reaches only the
generic handler and is re-raised unchanged.  A reply goes through the
strip/fence/loads/extract tail, where a decode failure is translated to
`jsonParseExc` (inside `parseSoapContent`). -/
def generate_soap_with_ai (s : Settings) (transport : TransportResult) :
    Except PyExc (List (Str × PyVal)) × Nat :=
  match _get_llm_kwargs s with
  | .error e => (.error e, 0)
  | .ok _ =>
    match transport with
    | .exc e =>
      if isJSONDecodeError e then (.error unboundLocalContentExc, 1)
      else (.error e, 1)
    | .reply text => (parseSoapContent text, 1)

/-- The patient attributes `build_soap_context` reads. -/
structure Patient where
  allergies : List Str
  medical_conditions : List Str
  current_medications : Str
  blood_type : Str

/-- The consultation attributes `build_soap_context` reads.  Nullable
Django integer fields (`PositiveIntegerField(null=True)`) are `Option Nat`;
the one-decimal-place `DecimalField`s (`temperature`, `weight`, `height`)
are `Option Nat` in tenths, rendered with one decimal digit as CPython
prints such a `Decimal`.  `consultation_date` and `soap_assessment` are
the attributes the history loop reads besides `c.diagnosis` — which the
Django model does NOT define (its field is `primary_diagnosis`), so that
access raises `AttributeError`; accordingly there is no `diagnosis`
field here. -/
structure Consultation where
  patient : Patient
  chief_complaint : Str
  bp_systolic : Option Nat
  bp_diastolic : Option Nat
  temperature : Option Nat
  temperature_unit : Str
  weight : Option Nat
  weight_unit : Str
  height : Option Nat
  height_unit : Str
  heart_rate : Option Nat
  respiratory_rate : Option Nat
  oxygen_saturation : Option Nat
  consultation_date : Str
  soap_assessment : Str

/-- Python truthiness of a nullable integer field: `None` and `0` are
falsy. -/
def truthyOptNat : Option Nat → Bool
  | some n => n != 0
  | Option.none => false

/-- Python `x or ""` on a string. -/
def pyOrStr (a b : Str) : Str := if a = [] then b else a

/-- Formatting `f"\x7bn\x7d"` for an integer field. -/
def natRepr (n : Nat) : Str := (Nat.repr n).data

/-- Formatting `f"\x7bd\x7d"` for a one-decimal-place `Decimal` stored in tenths. -/
def decimalRepr (tenths : Nat) : Str :=
  natRepr (tenths / 10) ++ '.' :: natRepr (tenths % 10)

structure MedicalInfo where
  allergies : List Str
  medical_conditions : List Str
  current_medications : Str
  blood_type : Str
deriving DecidableEq

/-- The shape of a history entry the comprehension is written to build;
no entry is ever completed, since `c.diagnosis` raises before the first
one is finished. -/
structure HistoryEntry where
  date : Str
  chief_complaint : Str
  diagnosis : Str
  assessment : Str
deriving DecidableEq

/-- The context dict built by `build_soap_context`; `vital_signs` is its
`vital_signs` sub-dict, a fixed-key dict whose values are formatted
strings or `None` (`Option Str`). -/
structure SoapContext where
  chief_complaint : Str
  vital_signs : List (Str × Option Str)
  patient_medical_info : MedicalInfo
  patient_history : List HistoryEntry
deriving DecidableEq

/-- The `AttributeError` raised by `c.diagnosis` in the history
comprehension: the Django `Consultation` model defines
`primary_diagnosis` but no `diagnosis` attribute, and the caller
(`GenerateSOAPView`) passes model instances. -/
def consultationDiagnosisExc : PyExc :=
  ⟨"AttributeError".data,
   "\x27Consultation\x27 object has no attribute \x27diagnosis\x27".data⟩

/-- The source `build_soap_context`.  The history comprehension reads
`c.diagnosis`, an attribute the model does not define, so for any
non-empty history the first entry raises `AttributeError` and no context
is built; only an empty history yields the context dict (whose
`patient_history` is then the empty list). -/
def build_soap_context (consultation : Consultation)
    (patient_history : List Consultation) : Except PyExc SoapContext :=
  let patient := consultation.patient
  match patient_history with
  | _ :: _ => .error consultationDiagnosisExc
  | [] => .ok
    { chief_complaint := pyOrStr consultation.chief_complaint []
      vital_signs := [
        (("blood_pressure".data),
          if truthyOptNat consultation.bp_systolic && truthyOptNat consultation.bp_diastolic then
            some (natRepr (consultation.bp_systolic.getD 0) ++
                  '/' :: natRepr (consultation.bp_diastolic.getD 0) ++ (" mmHg".data))
          else Option.none),
        (("temperature".data),
          if truthyOptNat consultation.temperature then
            some (decimalRepr (consultation.temperature.getD 0) ++
                  ("°".data) ++ consultation.temperature_unit)
          else Option.none),
        (("heart_rate".data),
          if truthyOptNat consultation.heart_rate then
            some (natRepr (consultation.heart_rate.getD 0) ++ (" bpm".data))
          else Option.none),
        (("respiratory_rate".data),
          if truthyOptNat consultation.respiratory_rate then
            some (natRepr (consultation.respiratory_rate.getD 0) ++ ("/min".data))
          else Option.none),
        (("oxygen_saturation".data),
          if truthyOptNat consultation.oxygen_saturation then
            some (natRepr (consultation.oxygen_saturation.getD 0) ++ ("%".data))
          else Option.none),
        (("weight".data),
          if truthyOptNat consultation.weight then
            some (decimalRepr (consultation.weight.getD 0) ++ ' ' :: consultation.weight_unit)
          else Option.none),
        (("height".data),
          if truthyOptNat consultation.height then
            some (decimalRepr (consultation.height.getD 0) ++ ' ' :: consultation.height_unit)
          else Option.none)]
      patient_medical_info :=
        { allergies := if patient.allergies ≠ [] then patient.allergies else []
          medical_conditions := if patient.medical_conditions ≠ [] then patient.medical_conditions else []
          current_medications := pyOrStr patient.current_medications []
          blood_type := pyOrStr patient.blood_type [] }
      patient_history := [] }

/-- The seven vital-sign keys of the built context, in construction
order. -/
def vitalKeys : List Str :=
  ["blood_pressure".data, "temperature".data, "heart_rate".data,
   "respiratory_rate".data, "oxygen_saturation".data, "weight".data, "height".data]

/-! ### Concrete instances used as witnesses and counterexamples -/

/-- A patient with no recorded medical information. -/
def emptyPatient : Patient := ⟨[], [], [], []⟩

/-- A consultation with a chief complaint and no recorded vitals. -/
def noVitalsConsultation : Consultation :=
  { patient := emptyPatient
    chief_complaint := "Headache".data
    bp_systolic := Option.none
    bp_diastolic := Option.none
    temperature := Option.none
    temperature_unit := "C".data
    weight := Option.none
    weight_unit := "kg".data
    height := Option.none
    height_unit := "cm".data
    heart_rate := Option.none
    respiratory_rate := Option.none
    oxygen_saturation := Option.none
    consultation_date := "2026-01-10".data
    soap_assessment := [] }

/-- The same consultation with blood pressure 120/80 recorded. -/
def bpConsultation : Consultation :=
  { noVitalsConsultation with bp_systolic := some 120, bp_diastolic := some 80 }

/-- The context built for `noVitalsConsultation` with an empty history:
all seven vitals present with value `None`. -/
def noVitalsContext : SoapContext :=
  { chief_complaint := "Headache".data
    vital_signs :=
      [(("blood_pressure".data), Option.none), (("temperature".data), Option.none),
       (("heart_rate".data), Option.none), (("respiratory_rate".data), Option.none),
       (("oxygen_saturation".data), Option.none), (("weight".data), Option.none),
       (("height".data), Option.none)]
    patient_medical_info := ⟨[], [], [], []⟩
    patient_history := [] }

/-- The context built for `bpConsultation` with an empty history: blood
pressure formatted, the other six vitals `None`. -/
def bpContext : SoapContext :=
  { noVitalsContext with
      vital_signs :=
        [(("blood_pressure".data), some ("120/80 mmHg".data)),
         (("temperature".data), Option.none), (("heart_rate".data), Option.none),
         (("respiratory_rate".data), Option.none), (("oxygen_saturation".data), Option.none),
         (("weight".data), Option.none), (("height".data), Option.none)] }

/-- Settings with no configured model and no provider credentials. -/
def emptySettings : Settings := ⟨Option.none, Option.none, Option.none, []⟩

/-- Settings with only the Anthropic credential set and the deployed
model-config map. -/
def anthroSettings : Settings :=
  ⟨Option.none, some ("sk-ant".data), Option.none,
   [(("claude-sonnet-4-5-20250929".data), [(("api_key".data), ("sk-ant".data))])]⟩

/-- Settings with both provider credentials set and no explicit model. -/
def bothKeysSettings : Settings :=
  ⟨Option.none, some ("sk-ant".data), some ("sk-oai".data),
   [(("claude-sonnet-4-5-20250929".data), [(("api_key".data), ("sk-ant".data))])]⟩

/-! ### Helper lemmas -/

theorem splitNl_ne_nil (s : Str) : splitNl s ≠ [] := by
  induction s with
  | nil => simp [splitNl]
  | cons c rest ih =>
    by_cases h : c = '\n'
    · simp [splitNl, h]
    · obtain ⟨l, ls, hls⟩ := List.exists_cons_of_ne_nil ih
      simp [splitNl, h, hls]

theorem splitNl_append (a b : Str) : splitNl (a ++ '\n' :: b) = splitNl a ++ splitNl b := by
  induction a with
  | nil => simp [splitNl]
  | cons c a1 ih =>
    by_cases h : c = '\n'
    · subst h
      simp [splitNl, ih]
    · obtain ⟨l, ls, hls⟩ := List.exists_cons_of_ne_nil (splitNl_ne_nil a1)
      rw [hls] at ih
      simp [splitNl, h, ih, hls]

theorem joinNl_splitNl (s : Str) : joinNl (splitNl s) = s := by
  induction s with
  | nil => rfl
  | cons c rest ih =>
    by_cases h : c = '\n'
    · subst h
      obtain ⟨l, ls, hls⟩ := List.exists_cons_of_ne_nil (splitNl_ne_nil rest)
      rw [hls] at ih
      simp [splitNl, joinNl, hls, ih]
    · obtain ⟨l, ls, hls⟩ := List.exists_cons_of_ne_nil (splitNl_ne_nil rest)
      rw [hls] at ih
      cases ls with
      | nil => simp [splitNl, h, hls, joinNl] at ih ⊢; rw [ih]
      | cons l2 ls2 => simp [splitNl, h, hls, joinNl] at ih ⊢; rw [ih]

theorem splitNl_of_not_mem (s : Str) (h : '\n' ∉ s) : splitNl s = [s] := by
  induction s with
  | nil => rfl
  | cons c rest ih =>
    simp only [List.mem_cons, not_or] at h
    have hc : ¬ c = '\n' := fun hh => h.1 hh.symm
    simp [splitNl, hc, ih h.2]

theorem dropWhile_id_of_head (p : Char → Bool) (s : Str)
    (h : ∀ c, s.head? = some c → p c = false) : s.dropWhile p = s := by
  cases s with
  | nil => rfl
  | cons c rest => simp [List.dropWhile_cons, h c rfl]

theorem pyStrip_eq_self (s : Str)
    (h1 : ∀ c, s.head? = some c → isPySpace c = false)
    (h2 : ∀ c, s.getLast? = some c → isPySpace c = false) : pyStrip s = s := by
  unfold pyStrip
  rw [dropWhile_id_of_head _ _ h1]
  rw [dropWhile_id_of_head _ _ (fun c hc => h2 c (by rwa [List.head?_reverse] at hc))]
  exact List.reverse_reverse s

theorem mem_of_mem_dropWhile (p : Char → Bool) (s : Str) (c : Char)
    (h : c ∈ s.dropWhile p) : c ∈ s := by
  induction s with
  | nil => simp at h
  | cons a rest ih =>
    rw [List.dropWhile_cons] at h
    by_cases hp : p a = true
    · simp only [hp, if_true] at h
      exact List.mem_cons_of_mem a (ih h)
    · simpa [hp] using h

theorem isPrefixOf_append_left (a b : Str) : List.isPrefixOf a (a ++ b) = true := by
  induction a with
  | nil => simp [List.isPrefixOf]
  | cons c a1 ih => simp [List.isPrefixOf, ih]

theorem isPrefixOf_of_append_isPrefixOf (a b l : Str)
    (h : List.isPrefixOf (a ++ b) l = true) : List.isPrefixOf a l = true := by
  induction a generalizing l with
  | nil => simp [List.isPrefixOf]
  | cons c a1 ih =>
    cases l with
    | nil => simp [List.isPrefixOf] at h
    | cons d l1 =>
      simp only [List.cons_append, List.isPrefixOf, Bool.and_eq_true] at h ⊢
      exact ⟨h.1, ih l1 h.2⟩

theorem not_json_fence_of_not_fence (l : Str)
    (h : List.isPrefixOf ("```".data) l = false) :
    List.isPrefixOf ("```json".data) l = false := by
  by_contra hc
  rw [Bool.not_eq_false] at hc
  have h3 : List.isPrefixOf (("```".data) ++ ("json".data)) l = true := hc
  have := isPrefixOf_of_append_isPrefixOf ("```".data) ("json".data) l h3
  simp [h] at this

theorem startsFence_head (p : Str) (h3 : List.isPrefixOf ("```".data) p = true) :
    ∃ l ls, splitNl p = l :: ls ∧ List.isPrefixOf ("```".data) l = true := by
  cases p with
  | nil => simp [List.isPrefixOf] at h3
  | cons a p1 =>
  cases p1 with
  | nil => simp [List.isPrefixOf] at h3
  | cons b p2 =>
  cases p2 with
  | nil => simp [List.isPrefixOf] at h3
  | cons c rest =>
    simp only [List.isPrefixOf, Bool.and_eq_true, beq_iff_eq] at h3
    obtain ⟨ha, hb, hc, -⟩ := h3
    subst ha; subst hb; subst hc
    obtain ⟨l, ls, hls⟩ := List.exists_cons_of_ne_nil (splitNl_ne_nil rest)
    refine ⟨'`' :: '`' :: '`' :: l, ls, ?_, by simp [List.isPrefixOf]⟩
    have h1 : ('`' : Char) ≠ '\n' := by decide
    simp [splitNl, h1, hls]

theorem fenceFilter_true_keep (ls : List Str) (tail : Str)
    (h : ∀ l, l ∈ ls → List.isPrefixOf ("```".data) l = false)
    (htail : List.isPrefixOf ("```".data) tail = true)
    (htail2 : List.isPrefixOf ("```json".data) tail = false) :
    fenceFilter true (ls ++ [tail]) = ls := by
  induction ls with
  | nil => simp [fenceFilter, htail, htail2]
  | cons l ls1 ih =>
    have h1 := h l (List.mem_cons_self l ls1)
    have h2 := not_json_fence_of_not_fence l h1
    simp [fenceFilter, h1, h2, ih (fun x hx => h x (List.mem_cons_of_mem l hx))]

theorem fenceFilter_false_drop (ls : List Str) (tail : Str)
    (h : ∀ l, l ∈ ls → List.isPrefixOf ("```".data) l = false)
    (htail : List.isPrefixOf ("```".data) tail = true)
    (htail2 : List.isPrefixOf ("```json".data) tail = false) :
    fenceFilter false (ls ++ [tail]) = [] := by
  induction ls with
  | nil => simp [fenceFilter, htail, htail2]
  | cons l ls1 ih =>
    have h1 := h l (List.mem_cons_self l ls1)
    have h2 := not_json_fence_of_not_fence l h1
    simp [fenceFilter, h1, h2, ih (fun x hx => h x (List.mem_cons_of_mem l hx))]

/-- A fence-wrapped reply (opening line starting with a backtick, closing
line ```` ``` ````) is unchanged by the initial `str.strip()`. -/
theorem pyStrip_fence_wrapped (A1 p : Str) :
    pyStrip (('`' :: A1) ++ ('\n' :: p) ++ ('\n' :: ("```".data))) =
      ('`' :: A1) ++ ('\n' :: p) ++ ('\n' :: ("```".data)) := by
  apply pyStrip_eq_self
  · intro c hc
    simp only [List.cons_append, List.head?_cons, Option.some.injEq] at hc
    subst hc
    decide
  · intro c hc
    have hsplit : ('`' :: A1) ++ ('\n' :: p) ++ ('\n' :: ("```".data)) =
        ((('`' :: A1) ++ ('\n' :: p) ++ ['\n', '`', '`']) ++ ['`']) := by
      simp [List.append_assoc]
    rw [hsplit, List.getLast?_concat] at hc
    simp only [Option.some.injEq] at hc
    subst hc
    decide

theorem find?_map_replace_ne (d : List (Str × Str)) (k v q : Str)
    (hk : (k == q) = false) :
    (d.map (fun p => if p.1 == k then (k, v) else p)).find? (fun p => p.1 == q) =
      d.find? (fun p => p.1 == q) := by
  induction d with
  | nil => rfl
  | cons p d1 ih =>
    rw [List.map_cons]
    by_cases hp : (p.1 == k) = true
    · have hpeq : p.1 = k := by simpa using hp
      have hpq : (p.1 == q) = false := by rw [hpeq]; exact hk
      rw [if_pos hp]
      simp only [List.find?, hk, hpq]
      exact ih
    · rw [if_neg hp]
      simp only [List.find?]
      cases hq : (p.1 == q) with
      | true => rfl
      | false => simp only [hq]; exact ih

theorem find?_append_singleton_ne (d : List (Str × Str)) (k v q : Str)
    (hk : (k == q) = false) :
    (d ++ [(k, v)]).find? (fun p => p.1 == q) = d.find? (fun p => p.1 == q) := by
  rw [List.find?_append]
  simp [List.find?_cons, hk]

theorem strDictGet_insert_ne (d : List (Str × Str)) (k v q dflt : Str)
    (hk : (k == q) = false) :
    strDictGet (strDictInsert d k v) q dflt = strDictGet d q dflt := by
  unfold strDictGet strDictInsert
  by_cases hany : d.any (fun p => p.1 == k) = true
  · rw [if_pos hany, find?_map_replace_ne d k v q hk]
  · rw [if_neg hany, find?_append_singleton_ne d k v q hk]

theorem strDictGet_model_foldl (cfg init : List (Str × Str))
    (hcfg : ∀ kv, kv ∈ cfg → (kv.1 == ("model".data)) = false) :
    strDictGet (cfg.foldl (fun d p => strDictInsert d p.1 p.2) init) ("model".data) [] =
      strDictGet init ("model".data) [] := by
  induction cfg generalizing init with
  | nil => rfl
  | cons p cfg1 ih =>
    rw [List.foldl_cons, ih _ (fun kv hkv => hcfg kv (List.mem_cons_of_mem p hkv))]
    exact strDictGet_insert_ne init p.1 p.2 _ [] (hcfg p (List.mem_cons_self p cfg1))

theorem lookupConfig_clean (models : List (Str × List (Str × Str))) (name : Str)
    (hclean : ∀ cfg, cfg ∈ models → ∀ kv, kv ∈ cfg.2 → (kv.1 == ("model".data)) = false) :
    ∀ kv, kv ∈ lookupConfig models name → (kv.1 == ("model".data)) = false := by
  intro kv hkv
  unfold lookupConfig at hkv
  cases hf : models.find? (fun p => p.1 == name) with
  | none => rw [hf] at hkv; simp at hkv
  | some p =>
    rw [hf] at hkv
    exact hclean p (List.mem_of_find?_eq_some hf) kv hkv

/-! ### Claims -/

/-- Claim C1, counterexample: the claim says a vital with missing data is
omitted from the vital_signs mapping entirely (never included with a null
value) and that a consultation with no recorded vitals yields an empty
mapping.  On the code, a consultation with no recorded vitals (and an
empty history, the only case in which a context is built at all) yields a
non-empty mapping that contains `blood_pressure ↦ None` (and likewise all
other vitals with `None` values). -/
theorem C1_counterexample :
    build_soap_context noVitalsConsultation [] = .ok noVitalsContext ∧
    noVitalsContext.vital_signs ≠ [] ∧
    ((("blood_pressure".data), (Option.none : Option Str)) ∈ noVitalsContext.vital_signs) :=
  ⟨rfl, by decide, by decide⟩

/-- Claim C1, amended: whenever `build_soap_context` returns a context —
which happens exactly for an empty prior-visit history, since for a
non-empty history the history loop's `c.diagnosis` access raises
`AttributeError` and no context is built — the vital_signs mapping
contains exactly the seven vital keys in construction order; each vital
with data present (Python-truthy, i.e. non-null and nonzero) maps to its
formatted string (blood pressure to
`"\x7bsystolic\x7d/\x7bdiastolic\x7d mmHg"` exactly when both values are
present and nonzero), each vital with missing or zero data maps to `None`
and stays in the mapping, and a consultation with no recorded vitals
yields the seven-entry all-`None` mapping rather than an empty one. -/
theorem C1_vitals_amended (c : Consultation) (h : List Consultation) (ctx : SoapContext)
    (hok : build_soap_context c h = .ok ctx) :
    (h = []) ∧
    (ctx.vital_signs.map Prod.fst = vitalKeys) ∧
    (∀ m n, c.bp_systolic = some m → c.bp_diastolic = some n → m ≠ 0 → n ≠ 0 →
      ((("blood_pressure".data),
        some (natRepr m ++ '/' :: natRepr n ++ (" mmHg".data))) ∈ ctx.vital_signs)) ∧
    ((truthyOptNat c.bp_systolic = false ∨ truthyOptNat c.bp_diastolic = false) →
      ((("blood_pressure".data), (Option.none : Option Str)) ∈ ctx.vital_signs)) ∧
    (∀ t, c.temperature = some t → t ≠ 0 →
      ((("temperature".data),
        some (decimalRepr t ++ ("°".data) ++ c.temperature_unit)) ∈ ctx.vital_signs)) ∧
    (truthyOptNat c.temperature = false →
      ((("temperature".data), (Option.none : Option Str)) ∈ ctx.vital_signs)) ∧
    (∀ t, c.heart_rate = some t → t ≠ 0 →
      ((("heart_rate".data), some (natRepr t ++ (" bpm".data))) ∈ ctx.vital_signs)) ∧
    (truthyOptNat c.heart_rate = false →
      ((("heart_rate".data), (Option.none : Option Str)) ∈ ctx.vital_signs)) ∧
    (∀ t, c.respiratory_rate = some t → t ≠ 0 →
      ((("respiratory_rate".data), some (natRepr t ++ ("/min".data))) ∈ ctx.vital_signs)) ∧
    (truthyOptNat c.respiratory_rate = false →
      ((("respiratory_rate".data), (Option.none : Option Str)) ∈ ctx.vital_signs)) ∧
    (∀ t, c.oxygen_saturation = some t → t ≠ 0 →
      ((("oxygen_saturation".data), some (natRepr t ++ ("%".data))) ∈ ctx.vital_signs)) ∧
    (truthyOptNat c.oxygen_saturation = false →
      ((("oxygen_saturation".data), (Option.none : Option Str)) ∈ ctx.vital_signs)) ∧
    (∀ t, c.weight = some t → t ≠ 0 →
      ((("weight".data), some (decimalRepr t ++ ' ' :: c.weight_unit)) ∈ ctx.vital_signs)) ∧
    (truthyOptNat c.weight = false →
      ((("weight".data), (Option.none : Option Str)) ∈ ctx.vital_signs)) ∧
    (∀ t, c.height = some t → t ≠ 0 →
      ((("height".data), some (decimalRepr t ++ ' ' :: c.height_unit)) ∈ ctx.vital_signs)) ∧
    (truthyOptNat c.height = false →
      ((("height".data), (Option.none : Option Str)) ∈ ctx.vital_signs)) ∧
    (truthyOptNat c.bp_systolic = false → truthyOptNat c.temperature = false →
     truthyOptNat c.heart_rate = false → truthyOptNat c.respiratory_rate = false →
     truthyOptNat c.oxygen_saturation = false → truthyOptNat c.weight = false →
     truthyOptNat c.height = false →
      ctx.vital_signs =
        [(("blood_pressure".data), Option.none), (("temperature".data), Option.none),
         (("heart_rate".data), Option.none), (("respiratory_rate".data), Option.none),
         (("oxygen_saturation".data), Option.none), (("weight".data), Option.none),
         (("height".data), Option.none)]) := by
  cases h with
  | cons c1 h1 => simp [build_soap_context] at hok
  | nil =>
    simp only [build_soap_context, Except.ok.injEq] at hok
    subst hok
    refine ⟨rfl, by simp [vitalKeys], ?_, ?_, ?_, ?_, ?_, ?_, ?_, ?_, ?_, ?_, ?_, ?_,
            ?_, ?_, ?_⟩
    · intro m n hm hn hm0 hn0
      simp [truthyOptNat, hm, hn, hm0, hn0]
    · intro hf
      have h1 : (truthyOptNat c.bp_systolic && truthyOptNat c.bp_diastolic) = false := by
        rcases hf with hf | hf <;> simp [hf]
      simp [h1]
    · intro t ht ht0
      simp [truthyOptNat, ht, ht0]
    · intro hf
      simp [hf]
    · intro t ht ht0
      simp [truthyOptNat, ht, ht0]
    · intro hf
      simp [hf]
    · intro t ht ht0
      simp [truthyOptNat, ht, ht0]
    · intro hf
      simp [hf]
    · intro t ht ht0
      simp [truthyOptNat, ht, ht0]
    · intro hf
      simp [hf]
    · intro t ht ht0
      simp [truthyOptNat, ht, ht0]
    · intro hf
      simp [hf]
    · intro t ht ht0
      simp [truthyOptNat, ht, ht0]
    · intro hf
      simp [hf]
    · intro h1 h2 h3 h4 h5 h6 h7
      simp [h1, h2, h3, h4, h5, h6, h7]

/-- Claim C1, witness for the amended theorem at blood pressure 120/80
with every other vital missing: the blood pressure is formatted, and the
missing temperature is kept in the mapping as `None`. -/
theorem C1_amended_witness :
    ((("blood_pressure".data),
      some (natRepr 120 ++ '/' :: natRepr 80 ++ (" mmHg".data))) ∈ bpContext.vital_signs) ∧
    ((("temperature".data), (Option.none : Option Str)) ∈ bpContext.vital_signs) :=
  ⟨(C1_vitals_amended bpConsultation [] bpContext rfl).2.2.1 120 80 rfl rfl
      (by decide) (by decide),
   (C1_vitals_amended bpConsultation [] bpContext rfl).2.2.2.2.2.1 rfl⟩

/-- Claim C7: with no explicit default model and no provider credential
configured, the pipeline raises the configuration `ValueError` and the
completion endpoint records zero calls — `_get_llm_kwargs()` is evaluated
as an argument, before `litellm.completion` is entered. -/
theorem C7_config_before_call (s : Settings) (t : TransportResult)
    (hd : attrOrEmpty s.DEFAULT_LLM_MODEL = [])
    (ha : attrOrEmpty s.ANTHROPIC_API_KEY = [])
    (ho : attrOrEmpty s.OPENAI_API_KEY = []) :
    generate_soap_with_ai s t = (.error noLlmExc, 0) := by
  have hk : _get_llm_kwargs s = .error noLlmExc := by
    simp [_get_llm_kwargs, hd, ha, ho]
  cases t with
  | reply text => simp [generate_soap_with_ai, hk]
  | exc e => simp [generate_soap_with_ai, hk]

/-- Claim C7, witness at fully empty settings. -/
theorem C7_witness : generate_soap_with_ai emptySettings (.reply []) = (.error noLlmExc, 0) :=
  C7_config_before_call emptySettings (.reply []) rfl rfl rfl

/-- Claim C8: model resolution precedence — an explicit nonempty
`DEFAULT_LLM_MODEL` wins regardless of credentials; otherwise the
Anthropic credential selects the Anthropic model (even when the OpenAI
credential is also set); otherwise the OpenAI credential selects `gpt-4o`;
otherwise resolution fails.  The hypothesis that no per-model config entry
is itself keyed `"model"` matches the deployed `LLM_MODELS`, whose entries
carry only `api_key`. -/
theorem C8_model_resolution (s : Settings)
    (hclean : ∀ cfg, cfg ∈ s.LLM_MODELS → ∀ kv, kv ∈ cfg.2 → (kv.1 == ("model".data)) = false) :
    (∀ name, s.DEFAULT_LLM_MODEL = some name → name ≠ [] →
      ∃ kw, _get_llm_kwargs s = .ok kw ∧ strDictGet kw ("model".data) [] = name) ∧
    (attrOrEmpty s.DEFAULT_LLM_MODEL = [] → attrOrEmpty s.ANTHROPIC_API_KEY ≠ [] →
      ∃ kw, _get_llm_kwargs s = .ok kw ∧
        strDictGet kw ("model".data) [] = ("claude-sonnet-4-5-20250929".data)) ∧
    (attrOrEmpty s.DEFAULT_LLM_MODEL = [] → attrOrEmpty s.ANTHROPIC_API_KEY = [] →
      attrOrEmpty s.OPENAI_API_KEY ≠ [] →
      ∃ kw, _get_llm_kwargs s = .ok kw ∧ strDictGet kw ("model".data) [] = ("gpt-4o".data)) ∧
    (attrOrEmpty s.DEFAULT_LLM_MODEL = [] → attrOrEmpty s.ANTHROPIC_API_KEY = [] →
      attrOrEmpty s.OPENAI_API_KEY = [] → _get_llm_kwargs s = .error noLlmExc) := by
  have hmodel : ∀ name : Str,
      strDictGet ((lookupConfig s.LLM_MODELS name).foldl
        (fun d p => strDictInsert d p.1 p.2) [(("model".data), name)]) ("model".data) [] = name := by
    intro name
    rw [strDictGet_model_foldl _ _ (lookupConfig_clean s.LLM_MODELS name hclean)]
    simp [strDictGet]
  refine ⟨?_, ?_, ?_, ?_⟩
  · intro name hname hne
    refine ⟨_, ?_, hmodel name⟩
    simp [_get_llm_kwargs, hname, attrOrEmpty, hne]
  · intro hd ha
    refine ⟨_, ?_, hmodel _⟩
    simp [_get_llm_kwargs, hd, ha]
  · intro hd ha ho
    refine ⟨_, ?_, hmodel _⟩
    simp [_get_llm_kwargs, hd, ha, ho]
  · intro hd ha ho
    simp [_get_llm_kwargs, hd, ha, ho]

/-- Claim C8, witness: both credentials set, no explicit model — the
Anthropic model is selected. -/
theorem C8_witness :
    ∃ kw, _get_llm_kwargs bothKeysSettings = .ok kw ∧
      strDictGet kw ("model".data) [] = ("claude-sonnet-4-5-20250929".data) :=
  (C8_model_resolution bothKeysSettings (by decide)).2.1 rfl (by decide)

/-- Claim C9, counterexample: the claim says the caller can distinguish a
parse failure from a configuration failure by the kind of error raised.
On the code both are raised as `ValueError` (the configuration error from
`_get_llm_kwargs`, re-raised unchanged by the generic handler; the parse
error from the `json.JSONDecodeError` handler), so their kinds coincide. -/
theorem C9_counterexample :
    (generate_soap_with_ai emptySettings (.reply ("x".data))).1 = .error noLlmExc ∧
    (generate_soap_with_ai anthroSettings (.reply ("not json".data))).1 = .error jsonParseExc ∧
    noLlmExc.etype = jsonParseExc.etype :=
  ⟨rfl, rfl, rfl⟩

/-- Claim C9, amended: an exception raised by the model invocation that
is not a `json.JSONDecodeError` propagates to the caller unchanged (so a
provider/transport failure keeps its original exception type, distinct
from ParseError whenever that type is not `ValueError`); a
completion-raised `JSONDecodeError`, by contrast, is caught by the parse
handler — whose logging of the still-unbound `content` raises
`UnboundLocalError` — so it does not propagate unchanged; and the
configuration error is itself a `ValueError`, the same exception kind as
ParseError, so those two are distinguishable only by message. -/
theorem C9_amended (s : Settings) (e : PyExc) (kw : List (Str × Str))
    (hok : _get_llm_kwargs s = .ok kw)
    (hnj : isJSONDecodeError e = false) :
    generate_soap_with_ai s (.exc e) = (.error e, 1) ∧
    (∀ e2, isJSONDecodeError e2 = true →
      generate_soap_with_ai s (.exc e2) = (.error unboundLocalContentExc, 1)) ∧
    noLlmExc.etype = jsonParseExc.etype ∧
    noLlmExc.msg ≠ jsonParseExc.msg := by
  refine ⟨?_, ?_, rfl, by decide⟩
  · simp [generate_soap_with_ai, hok, hnj]
  · intro e2 hj
    simp [generate_soap_with_ai, hok, hj]

/-- Claim C9, witness: a transport exception with a provider-specific
type propagates unchanged, while a transport-raised `JSONDecodeError`
surfaces as the handler's `UnboundLocalError`. -/
theorem C9_amended_witness :
    generate_soap_with_ai anthroSettings
        (.exc ⟨"APIConnectionError".data, "connection refused".data⟩) =
      (.error ⟨"APIConnectionError".data, "connection refused".data⟩, 1) ∧
    generate_soap_with_ai anthroSettings
        (.exc ⟨"JSONDecodeError".data, "Expecting value: line 1 column 1 (char 0)".data⟩) =
      (.error unboundLocalContentExc, 1) ∧
    noLlmExc.etype = jsonParseExc.etype ∧
    noLlmExc.msg ≠ jsonParseExc.msg :=
  ⟨(C9_amended anthroSettings ⟨"APIConnectionError".data, "connection refused".data⟩
      [(("model".data), ("claude-sonnet-4-5-20250929".data)),
       (("api_key".data), ("sk-ant".data))] rfl rfl).1,
   (C9_amended anthroSettings ⟨"APIConnectionError".data, "connection refused".data⟩
      [(("model".data), ("claude-sonnet-4-5-20250929".data)),
       (("api_key".data), ("sk-ant".data))] rfl rfl).2.1
     ⟨"JSONDecodeError".data, "Expecting value: line 1 column 1 (char 0)".data⟩ rfl,
   (C9_amended anthroSettings ⟨"APIConnectionError".data, "connection refused".data⟩
      [(("model".data), ("claude-sonnet-4-5-20250929".data)),
       (("api_key".data), ("sk-ant".data))] rfl rfl).2.2.1,
   (C9_amended anthroSettings ⟨"APIConnectionError".data, "connection refused".data⟩
      [(("model".data), ("claude-sonnet-4-5-20250929".data)),
       (("api_key".data), ("sk-ant".data))] rfl rfl).2.2.2⟩

/-- Claim C2: a raw reply that (after the initial strip, with no code
fence) decodes to a JSON object whose four SOAP keys hold the strings
`s`, `o`, `a`, `p` makes the pipeline return exactly those four values
unchanged, under those keys. -/
theorem C2_roundtrip (raw : Str) (d : List (Str × PyVal)) (s o a p : Str)
    (hfence : List.isPrefixOf ("```".data) (pyStrip raw) = false)
    (hload : loads (pyStrip raw) = some (.dict d))
    (hs : dictGet d ("subjective".data) (.str []) = .str s)
    (ho : dictGet d ("objective".data) (.str []) = .str o)
    (ha : dictGet d ("assessment".data) (.str []) = .str a)
    (hp : dictGet d ("plan".data) (.str []) = .str p) :
    parseSoapContent raw =
      .ok [(("subjective".data), .str s), (("objective".data), .str o),
           (("assessment".data), .str a), (("plan".data), .str p)] := by
  have hsf : stripFences (pyStrip raw) = pyStrip raw := by
    simp [stripFences, hfence]
  simp [parseSoapContent, hsf, hload, extractSoap, hs, ho, ha, hp]

/-- Claim C2, witness on a concrete four-key reply with a leading
space. -/
theorem C2_witness :
    parseSoapContent
        (" \x7b\"subjective\": \"S\", \"objective\": \"O\", \"assessment\": \"A\", \"plan\": \"P\"\x7d".data) =
      .ok [(("subjective".data), .str ("S".data)), (("objective".data), .str ("O".data)),
           (("assessment".data), .str ("A".data)), (("plan".data), .str ("P".data))] :=
  C2_roundtrip _
    [(("subjective".data), .str ("S".data)), (("objective".data), .str ("O".data)),
     (("assessment".data), .str ("A".data)), (("plan".data), .str ("P".data))]
    ("S".data) ("O".data) ("A".data) ("P".data) rfl rfl rfl rfl rfl rfl

/-- The fence-handling block recovers exactly the enclosed payload from a
```` ```json ```` fence whose markers sit on their own lines, provided no
payload line itself starts with a fence marker (true of any strict JSON
payload, whose strings cannot contain raw newlines). -/
theorem stripFences_unwrap (p : Str)
    (hlines : ∀ l, l ∈ splitNl p → List.isPrefixOf ("```".data) l = false) :
    stripFences (("```json".data) ++ ('\n' :: p) ++ ('\n' :: ("```".data))) = p := by
  have hassoc : ("```json".data) ++ ('\n' :: p) ++ ('\n' :: ("```".data)) =
      ("```json".data) ++ ('\n' :: (p ++ '\n' :: ("```".data))) := by
    simp [List.append_assoc]
  have hpre : List.isPrefixOf ("```".data)
      (("```json".data) ++ ('\n' :: p) ++ ('\n' :: ("```".data))) = true := by
    rw [hassoc]
    have h7 : ("```json".data) = ("```".data) ++ ("json".data) := rfl
    rw [h7, List.append_assoc]
    exact isPrefixOf_append_left _ _
  have hsplit : splitNl (("```json".data) ++ ('\n' :: p) ++ ('\n' :: ("```".data))) =
      ("```json".data) :: (splitNl p ++ [("```".data)]) := by
    rw [hassoc, splitNl_append, splitNl_append]
    have h1 : splitNl ("```json".data) = [("```json".data)] := by decide
    have h2 : splitNl ("```".data) = [("```".data)] := by decide
    rw [h1, h2]
    rfl
  have hjson : List.isPrefixOf ("```json".data) ("```json".data) = true := by decide
  simp only [stripFences, hpre, if_true]
  rw [hsplit]
  simp only [fenceFilter, hjson, if_true]
  rw [fenceFilter_true_keep _ _ hlines (by decide) (by decide)]
  exact joinNl_splitNl p

/-- Claim C5: wrapping a payload in a ```` ```json ... ``` ```` fence
(markers on their own lines) and running the response pipeline yields
exactly the same result as running it on the unwrapped payload, for any
stripped payload none of whose lines starts with a fence marker (every
valid JSON payload qualifies). -/
theorem C5_fence_wrap_equiv (p : Str)
    (hlines : ∀ l, l ∈ splitNl p → List.isPrefixOf ("```".data) l = false)
    (hstrip : pyStrip p = p) :
    parseSoapContent (("```json".data) ++ ('\n' :: p) ++ ('\n' :: ("```".data))) =
      parseSoapContent p := by
  have hw : pyStrip (("```json".data) ++ ('\n' :: p) ++ ('\n' :: ("```".data))) =
      ("```json".data) ++ ('\n' :: p) ++ ('\n' :: ("```".data)) :=
    pyStrip_fence_wrapped ("``json".data) p
  have hnp : List.isPrefixOf ("```".data) p = false := by
    by_contra hc
    rw [Bool.not_eq_false] at hc
    obtain ⟨l, ls, hls, hpre⟩ := startsFence_head p hc
    have hl := hlines l (by rw [hls]; exact List.mem_cons_self l ls)
    simp [hl] at hpre
  have hsp : stripFences p = p := by simp [stripFences, hnp]
  simp only [parseSoapContent]
  rw [hw, hstrip, hsp, stripFences_unwrap p hlines]

/-- Claim C5, witness on a concrete four-key payload. -/
theorem C5_witness :
    parseSoapContent (("```json".data) ++
        ('\n' :: ("\x7b\"subjective\": \"S\", \"objective\": \"O\", \"assessment\": \"A\", \"plan\": \"P\"\x7d".data)) ++
        ('\n' :: ("```".data))) =
      parseSoapContent
        ("\x7b\"subjective\": \"S\", \"objective\": \"O\", \"assessment\": \"A\", \"plan\": \"P\"\x7d".data) :=
  C5_fence_wrap_equiv
    ("\x7b\"subjective\": \"S\", \"objective\": \"O\", \"assessment\": \"A\", \"plan\": \"P\"\x7d".data)
    (by decide) (by decide)

/-- Claim C10: the fence tolerance is keyed to an opening line starting
with exactly ```` ```json ````.  A fence whose opening line is a plain
```` ``` ````, and a fence whose opening marker and payload share a single
line, both make the collection step keep nothing: the stripped content is
the empty string, and the pipeline raises the ParseError `ValueError`,
even though the enclosed payload may be valid JSON. -/
theorem C10_fence_variants (p q : Str)
    (hlines : ∀ l, l ∈ splitNl p → List.isPrefixOf ("```".data) l = false)
    (hq : '\n' ∉ q) :
    (stripFences (pyStrip (("```".data) ++ ('\n' :: p) ++ ('\n' :: ("```".data)))) = [] ∧
     parseSoapContent (("```".data) ++ ('\n' :: p) ++ ('\n' :: ("```".data))) =
       .error jsonParseExc) ∧
    (stripFences (pyStrip (("```json".data) ++ q)) = [] ∧
     parseSoapContent (("```json".data) ++ q) = .error jsonParseExc) := by
  have hw1 : pyStrip (("```".data) ++ ('\n' :: p) ++ ('\n' :: ("```".data))) =
      ("```".data) ++ ('\n' :: p) ++ ('\n' :: ("```".data)) :=
    pyStrip_fence_wrapped ("``".data) p
  have hpre1 : List.isPrefixOf ("```".data)
      (("```".data) ++ ('\n' :: p) ++ ('\n' :: ("```".data))) = true := by
    rw [List.append_assoc]
    exact isPrefixOf_append_left _ _
  have hsplit1 : splitNl (("```".data) ++ ('\n' :: p) ++ ('\n' :: ("```".data))) =
      ("```".data) :: (splitNl p ++ [("```".data)]) := by
    have hassoc : ("```".data) ++ ('\n' :: p) ++ ('\n' :: ("```".data)) =
        ("```".data) ++ ('\n' :: (p ++ '\n' :: ("```".data))) := by
      simp [List.append_assoc]
    rw [hassoc, splitNl_append, splitNl_append]
    have h2 : splitNl ("```".data) = [("```".data)] := by decide
    rw [h2]
    rfl
  have hjson3 : List.isPrefixOf ("```json".data) ("```".data) = false := by decide
  have h33 : List.isPrefixOf ("```".data) ("```".data) = true := by decide
  have hsf1 : stripFences (("```".data) ++ ('\n' :: p) ++ ('\n' :: ("```".data))) = [] := by
    simp only [stripFences, hpre1, if_true]
    rw [hsplit1]
    simp only [fenceFilter, hjson3, h33, if_true, if_false]
    rw [fenceFilter_false_drop _ _ hlines h33 hjson3]
    rfl
  -- single-line variant
  have hq2 : '\n' ∉ (q.reverse.dropWhile isPySpace).reverse := by
    intro hm
    rw [List.mem_reverse] at hm
    have hm2 := mem_of_mem_dropWhile _ _ _ hm
    rw [List.mem_reverse] at hm2
    exact hq hm2
  have hw2 : pyStrip (("```json".data) ++ q) =
      ("```json".data) ++ (q.reverse.dropWhile isPySpace).reverse := by
    unfold pyStrip
    have h1 : (("```json".data) ++ q).dropWhile isPySpace = ("```json".data) ++ q := by
      apply dropWhile_id_of_head
      intro c hc
      simp only [List.cons_append, List.head?_cons, Option.some.injEq] at hc
      subst hc
      decide
    rw [h1, List.reverse_append, List.dropWhile_append]
    by_cases he : (q.reverse.dropWhile isPySpace).isEmpty = true
    · rw [if_pos he]
      have h2 : ("```json".data).reverse.dropWhile isPySpace = ("```json".data).reverse := by
        decide
      have h3 : q.reverse.dropWhile isPySpace = [] := by
        cases hqq : q.reverse.dropWhile isPySpace with
        | nil => rfl
        | cons x xs => rw [hqq] at he; simp [List.isEmpty] at he
      rw [h2, List.reverse_reverse, h3]
      simp
    · rw [if_neg he, List.reverse_append, List.reverse_reverse]
  have hnonl : '\n' ∉ (("```json".data) ++ (q.reverse.dropWhile isPySpace).reverse) := by
    intro hm
    rcases List.mem_append.mp hm with hmm | hmm
    · revert hmm; decide
    · exact hq2 hmm
  have hjsonpre : List.isPrefixOf ("```json".data)
      (("```json".data) ++ (q.reverse.dropWhile isPySpace).reverse) = true :=
    isPrefixOf_append_left _ _
  have hpre2 : List.isPrefixOf ("```".data)
      (("```json".data) ++ (q.reverse.dropWhile isPySpace).reverse) = true :=
    isPrefixOf_of_append_isPrefixOf ("```".data) ("json".data) _ hjsonpre
  have hsf2 : stripFences (("```json".data) ++ (q.reverse.dropWhile isPySpace).reverse) = [] := by
    simp only [stripFences, hpre2, if_true]
    rw [splitNl_of_not_mem _ hnonl]
    simp only [fenceFilter, hjsonpre, if_true]
    rfl
  refine ⟨⟨by rw [hw1]; exact hsf1, ?_⟩, ⟨by rw [hw2]; exact hsf2, ?_⟩⟩
  · simp only [parseSoapContent]
    rw [hw1, hsf1]
    rfl
  · simp only [parseSoapContent]
    rw [hw2, hsf2]
    rfl

/-- Claim C10, witness: a plain-fenced payload and a single-line
```` ```json ```` fence, both around valid JSON, both strip to the empty
string and raise the ParseError `ValueError`. -/
theorem C10_witness :
    (stripFences (pyStrip (("```".data) ++ ('\n' :: ("\x7b\"plan\": \"P\"\x7d".data)) ++
        ('\n' :: ("```".data)))) = [] ∧
     parseSoapContent (("```".data) ++ ('\n' :: ("\x7b\"plan\": \"P\"\x7d".data)) ++
        ('\n' :: ("```".data))) = .error jsonParseExc) ∧
    (stripFences (pyStrip (("```json".data) ++ (" \x7b\"plan\": \"P\"\x7d ```".data))) = [] ∧
     parseSoapContent (("```json".data) ++ (" \x7b\"plan\": \"P\"\x7d ```".data)) =
       .error jsonParseExc) :=
  C10_fence_variants ("\x7b\"plan\": \"P\"\x7d".data) (" \x7b\"plan\": \"P\"\x7d ```".data)
    (by decide) (by decide)

end HealthDash
